import Mathlib

/-!
Formal model of the kube-dns-sync program.

The Go program keeps the DNS address records of a configured hostname in
sync with the external IP addresses of the ready nodes of a Kubernetes
cluster.  This file is a shallow embedding of the functions
`parseAddress`, `syncHostnameIPs`, `isNodeReady`, `getClusterExternalIPs`,
`watchNodes` and the scheduling loop of `main`, with the external
collaborators (the libdns provider and the Kubernetes client) represented
by explicit result values supplied as parameters.
-/

namespace KubeDnsSync

/-- The `fmt.Errorf` format strings the program uses to wrap errors. -/
inductive WrapMsg where
  | failedToParseRecord
  | failedToDeleteRecords
  | failedToCreateRecords
  | failedToListNodes
  | failedToGetClusterExternalIPs
  | failedToSyncHostnameIPs
deriving DecidableEq, Repr

/-- A Go error value: either an error produced by an external collaborator
(abstracted by a tag) or an error wrapped by one of the program's
`fmt.Errorf("...: %w", err)` calls. -/
inductive GoError where
  | external : String → GoError
  | wrapped : WrapMsg → GoError → GoError
deriving DecidableEq, Repr

/-- A Go `netip.Addr` value: either the zero value `netip.Addr{}` (which is
what the zero `libdns.Address{}` carries, and which `netip.ParseAddr` never
returns), or a parsed IPv4/IPv6 address. -/
inductive IPAddr where
  | invalid : IPAddr
  | v4 : Nat → Nat → Nat → Nat → IPAddr
  | v6 : List Nat → IPAddr
deriving DecidableEq, Repr

/-- An `IPAddr` is valid iff it is not the zero `netip.Addr{}` value.
`netip.ParseAddr` yields only valid addresses. -/
def IPAddr.isValid : IPAddr → Bool
  | .invalid => false
  | _ => true

/-- A `libdns.Address` record: name, IP and TTL (TTL as a duration count). -/
structure Address where
  name : String
  ip : IPAddr
  ttl : Nat
deriving DecidableEq, Repr

/-- The zero `libdns.Address{}` value that `parseAddress` returns together
with a non-nil error. -/
def zeroAddress : Address := ⟨"", IPAddr.invalid, 0⟩

/-- One entry of the program's `DNSConfig`: hostname, zone, node label
selector and TTL. -/
structure DNSConfig where
  hostname : String
  zone : String
  labels : List (String × String)
  ttl : Nat
deriving DecidableEq, Repr

/-- A provider DNS record, abstracted by what `record.RR().Parse()` yields:
an address record carries its parsed `libdns.Address`; a record of any
other kind (TXT, CNAME, MX, ...) parses successfully to a non-address
typed record; a malformed record fails to parse with an error.  The `Nat`
tag distinguishes distinct provider records of the same shape. -/
inductive Record where
  | addressRec : Address → Record
  | otherRec : Nat → Record
  | malformedRec : Nat → GoError → Record
deriving DecidableEq, Repr

/-- The outcome of the Go function `parseAddress`: a parsed
`libdns.Address`, the sentinel `ErrNotAddressRecord` (paired with the zero
`libdns.Address{}` value), or a wrapped parse error (also paired with the
zero value). -/
inductive ParseResult where
  | ok : Address → ParseResult
  | errNotAddress : ParseResult
  | errOther : GoError → ParseResult
deriving DecidableEq, Repr

/-- Embedding of `parseAddress` (main.go): parse a record's RR; a
successful parse to `libdns.Address` is returned; a successful parse to
any other record kind yields `ErrNotAddressRecord`; a failed parse yields
the wrapped parse error. -/
def parseAddress : Record → ParseResult
  | .addressRec a => .ok a
  | .otherRec _ => .errNotAddress
  | .malformedRec _ e => .errOther (.wrapped .failedToParseRecord e)

/-- Loop body of the delete pass of `syncHostnameIPs`: records whose parse
fails with an error other than `ErrNotAddressRecord` are skipped; on
`ErrNotAddressRecord` the loop proceeds with the zero `libdns.Address{}`
value; a record is collected iff the (possibly zero) address's name equals
`config.Hostname` and its IP is not contained in `addresses`. -/
def isDeleteCandidate (cfg : DNSConfig) (addresses : List IPAddr) (record : Record) : Bool :=
  match parseAddress record with
  | .errOther _ => false
  | .errNotAddress =>
      decide (zeroAddress.name = cfg.hostname) && ! decide (zeroAddress.ip ∈ addresses)
  | .ok address =>
      decide (address.name = cfg.hostname) && ! decide (address.ip ∈ addresses)

/-- The `recordsToDelete` list computed by the delete pass of
`syncHostnameIPs`, in fetch order. -/
def recordsToDelete (cfg : DNSConfig) (records : List Record) (addresses : List IPAddr) :
    List Record :=
  records.filter (isDeleteCandidate cfg addresses)

/-- The predicate passed to `slices.ContainsFunc` in the create pass of
`syncHostnameIPs`: a fetched record counts as an existing record for the
desired address iff its parse (with the same lenient handling of
`ErrNotAddressRecord`) yields the pair `(config.Hostname, address)`. -/
def recordMatches (cfg : DNSConfig) (address : IPAddr) (record : Record) : Bool :=
  match parseAddress record with
  | .errOther _ => false
  | .errNotAddress =>
      decide (zeroAddress.name = cfg.hostname) && decide (zeroAddress.ip = address)
  | .ok rAddress =>
      decide (rAddress.name = cfg.hostname) && decide (rAddress.ip = address)

/-- The `recordsToCreate` list computed by the create pass of
`syncHostnameIPs`: one new `libdns.Address` record, built from
`config.Hostname`, the address and `config.TTL`, for every desired address
with no existing matching record. -/
def recordsToCreate (cfg : DNSConfig) (records : List Record) (addresses : List IPAddr) :
    List Address :=
  (addresses.filter (fun address => ! records.any (recordMatches cfg address))).map
    (fun address => ⟨cfg.hostname, address, cfg.ttl⟩)

/-- The batched provider calls issued by one run of `syncHostnameIPs`:
each element is the record list passed to one `DeleteRecords` or
`SetRecords` call. -/
structure SyncCalls where
  deleteCalls : List (List Record)
  createCalls : List (List Address)
deriving DecidableEq, Repr

/-- Behavior of the libdns provider during one run of `syncHostnameIPs`:
the result of `GetRecords`, and the errors (if any) that `DeleteRecords`
and `SetRecords` would return when called. -/
structure ProviderBehavior where
  getResult : Except GoError (List Record)
  deleteResult : Option GoError
  setResult : Option GoError

/-- Embedding of `syncHostnameIPs` (main.go): fetch the zone's records
(returning the error unwrapped on failure); compute the delete candidates
and, if any, issue one batched `DeleteRecords` call, aborting with a
wrapped error on failure; then compute the create candidates and, if any,
issue one batched `SetRecords` call, aborting with a wrapped error on
failure.  Returns the calls issued together with the error returned. -/
def syncHostnameIPs (provider : ProviderBehavior) (cfg : DNSConfig)
    (addresses : List IPAddr) : SyncCalls × Option GoError :=
  match provider.getResult with
  | .error e => (⟨[], []⟩, some e)
  | .ok records =>
      let toDelete := recordsToDelete cfg records addresses
      let delCalls : List (List Record) := if toDelete.isEmpty then [] else [toDelete]
      match (if toDelete.isEmpty then none else provider.deleteResult) with
      | some e => (⟨delCalls, []⟩, some (.wrapped .failedToDeleteRecords e))
      | none =>
          let toCreate := recordsToCreate cfg records addresses
          let createCalls : List (List Address) :=
            if toCreate.isEmpty then [] else [toCreate]
          match (if toCreate.isEmpty then none else provider.setResult) with
          | some e => (⟨delCalls, createCalls⟩, some (.wrapped .failedToCreateRecords e))
          | none => (⟨delCalls, createCalls⟩, none)

/-- The calls a run of `syncHostnameIPs` issues when the provider returns
`records` from `GetRecords` and both write calls succeed. -/
def syncCalls (cfg : DNSConfig) (records : List Record) (addresses : List IPAddr) :
    SyncCalls :=
  ⟨(if (recordsToDelete cfg records addresses).isEmpty then []
    else [recordsToDelete cfg records addresses]),
   (if (recordsToCreate cfg records addresses).isEmpty then []
    else [recordsToCreate cfg records addresses])⟩

/-- Effect of one batched `DeleteRecords` call on the provider state: every
record equal to a member of the batch is removed. -/
def applyDeletes (state : List Record) (batch : List Record) : List Record :=
  state.filter (fun r => ! decide (r ∈ batch))

/-- Effect at the provider of the calls issued by one reconciliation run:
the batched deletes remove the listed records and the batched creates add
the listed address records. -/
def applyCalls (state : List Record) (calls : SyncCalls) : List Record :=
  (calls.deleteCalls.foldl applyDeletes state) ++
    (calls.createCalls.flatMap (fun batch => batch.map Record.addressRec))

/-- Status of a Kubernetes node condition (`corev1.ConditionStatus`). -/
inductive ConditionStatus where
  | conditionTrue
  | conditionFalse
  | conditionUnknown
deriving DecidableEq, Repr

/-- Type of a Kubernetes node condition: `corev1.NodeReady` or any other
condition type. -/
inductive ConditionType where
  | nodeReady
  | otherCondition : String → ConditionType
deriving DecidableEq, Repr

/-- One entry of a node's `Status.Conditions`. -/
structure NodeCondition where
  condType : ConditionType
  status : ConditionStatus
deriving DecidableEq, Repr

/-- Type of a node address: `corev1.NodeExternalIP` or any other address
type (internal IP, hostname, ...). -/
inductive NodeAddressType where
  | nodeExternalIP
  | otherAddressType : String → NodeAddressType
deriving DecidableEq, Repr

/-- A node address string as `netip.ParseAddr` sees it: either a spelling
of a parseable IP literal (and `netip.ParseAddr` never yields the zero
`netip.Addr{}` value) or an unparsable string. -/
inductive AddrString where
  | parsesTo : IPAddr → AddrString
  | unparsable : String → AddrString
deriving DecidableEq, Repr

/-- Embedding of `netip.ParseAddr` on an abstracted address string. -/
def parseAddr : AddrString → Option IPAddr
  | .parsesTo ip => some ip
  | .unparsable _ => none

/-- One entry of a node's `Status.Addresses`. -/
structure NodeAddress where
  addrType : NodeAddressType
  value : AddrString
deriving DecidableEq, Repr

/-- A Kubernetes node, restricted to the fields the program reads. -/
structure Node where
  name : String
  conditions : List NodeCondition
  addresses : List NodeAddress
deriving DecidableEq, Repr

/-- The node list returned by `clientSet.CoreV1().Nodes().List`. -/
structure NodeList where
  resourceVersion : String
  items : List Node
deriving DecidableEq, Repr

/-- Embedding of `isNodeReady` (main.go): a node is ready iff some
condition has type `NodeReady` and status `ConditionTrue`. -/
def isNodeReady (node : Node) : Bool :=
  node.conditions.any (fun c =>
    decide (c.condType = ConditionType.nodeReady) &&
      decide (c.status = ConditionStatus.conditionTrue))

/-- Inner loop of `getClusterExternalIPs` for one ready node: every address
of type `NodeExternalIP` is parsed; parse failures are logged and skipped. -/
def nodeExternalAddrs (node : Node) : List IPAddr :=
  node.addresses.filterMap (fun a =>
    if a.addrType = NodeAddressType.nodeExternalIP then parseAddr a.value else none)

/-- The `(resourceVersion, addresses, error)` triple returned by
`getClusterExternalIPs`. -/
structure CollectResult where
  resourceVersion : String
  addresses : List IPAddr
  err : Option GoError
deriving DecidableEq, Repr

/-- Embedding of `getClusterExternalIPs` (main.go): on a node-list failure
return `("", nil, wrapped error)` immediately; otherwise skip nodes that
are not ready and collect the parseable external IP addresses of the
remaining nodes, never returning an error. -/
def getClusterExternalIPs (listResult : Except GoError NodeList) : CollectResult :=
  match listResult with
  | .error e => ⟨"", [], some (.wrapped .failedToListNodes e)⟩
  | .ok nodes =>
      ⟨nodes.resourceVersion,
       (nodes.items.filter isNodeReady).flatMap nodeExternalAddrs,
       none⟩

/-- Embedding of `watchNodes` (main.go): collect the cluster's external
IPs, wrapping a collection error; then run `syncHostnameIPs` on them,
wrapping a sync error.  Returns the provider calls issued and the error
returned. -/
def watchNodes (cluster : Except GoError NodeList) (provider : ProviderBehavior)
    (cfg : DNSConfig) : SyncCalls × Option GoError :=
  let collected := getClusterExternalIPs cluster
  match collected.err with
  | some e => (⟨[], []⟩, some (.wrapped .failedToGetClusterExternalIPs e))
  | none =>
      match syncHostnameIPs provider cfg collected.addresses with
      | (calls, some e) => (calls, some (.wrapped .failedToSyncHostnameIPs e))
      | (calls, none) => (calls, none)

/-- The environment of one target during one tick: its configuration and
the behavior of the cluster client and the DNS provider for that run. -/
structure TargetRun where
  cfg : DNSConfig
  cluster : Except GoError NodeList
  provider : ProviderBehavior

/-- The `watchNodes` run the scheduling loop performs for one target. -/
def runTarget (t : TargetRun) : SyncCalls × Option GoError :=
  watchNodes t.cluster t.provider t.cfg

/-- State after processing (part of) one tick's target list: the logged
per-target outcomes in order, the next cancellation-check index, and
whether the loop observed the cancellation signal and exited. -/
structure TickState where
  outcomes : List (Option GoError)
  counter : Nat
  cancelled : Bool

/-- Embedding of the per-tick target loop of `main` (main.go): each target
is processed by `watchNodes`; its error is logged (recorded in
`outcomes`), never propagated; after each target the loop polls the
cancellation signal (check number `k`, `k+1`, ...) and exits if it fired. -/
def runTick (cancel : Nat → Bool) (k : Nat) : List TargetRun → TickState
  | [] => ⟨[], k, false⟩
  | t :: rest =>
      let outcome := (runTarget t).2
      if cancel k then ⟨[outcome], k + 1, true⟩
      else
        let s := runTick cancel (k + 1) rest
        ⟨outcome :: s.outcomes, s.counter, s.cancelled⟩

/-- Embedding of the scheduling loop of `main` (main.go), run for `fuel`
iterations: each iteration processes the tick's target list with
`runTick`, then waits on either the cancellation signal or the interval
timer (one more cancellation check).  `envs t` gives the per-target
environments of tick `t`.  Returns the outcome lists of the ticks run and
whether the loop exited on cancellation. -/
def runLoop (cancel : Nat → Bool) (envs : Nat → List TargetRun) (k : Nat) :
    Nat → List (List (Option GoError)) × Bool
  | 0 => ([], false)
  | fuel + 1 =>
      let s := runTick cancel k (envs 0)
      if s.cancelled then ([s.outcomes], true)
      else if cancel s.counter then ([s.outcomes], true)
      else
        let r := runLoop cancel (fun t => envs (t + 1)) (s.counter + 1) fuel
        (s.outcomes :: r.1, r.2)

/-! ## Theorems -/

/-- Claim C9: listing nodes is the only operation that can fail the
collector: on a node-list failure `getClusterExternalIPs` returns
immediately with the wrapped error, an empty resource version and a nil
address list; on any successful node list it returns no error. -/
theorem claim9_list_failure_only :
    (∀ e : GoError,
      getClusterExternalIPs (Except.error e) =
        ⟨"", [], some (GoError.wrapped WrapMsg.failedToListNodes e)⟩) ∧
    (∀ nl : NodeList, (getClusterExternalIPs (Except.ok nl)).err = none) :=
  ⟨fun _ => rfl, fun _ => rfl⟩

/-- Claim C8: an unparsable external-IP string is skipped and nothing
else changes: the collector returns the same result as if that single
address entry were absent, and the call returns without error. -/
theorem claim8_malformed_address_skipped (rv nm : String) (conds : List NodeCondition)
    (pre post : List Node) (apre apost : List NodeAddress) (s : String) :
    getClusterExternalIPs (Except.ok
        ⟨rv, pre ++ ⟨nm, conds,
          apre ++ ⟨NodeAddressType.nodeExternalIP, AddrString.unparsable s⟩ :: apost⟩ :: post⟩) =
      getClusterExternalIPs (Except.ok ⟨rv, pre ++ ⟨nm, conds, apre ++ apost⟩ :: post⟩) ∧
    (getClusterExternalIPs (Except.ok
        ⟨rv, pre ++ ⟨nm, conds,
          apre ++ ⟨NodeAddressType.nodeExternalIP, AddrString.unparsable s⟩ :: apost⟩ :: post⟩)).err
      = none := by
  constructor
  · simp only [getClusterExternalIPs, List.filter_append, List.filter_cons]
    by_cases h : isNodeReady ⟨nm, conds,
        apre ++ ⟨NodeAddressType.nodeExternalIP, AddrString.unparsable s⟩ :: apost⟩
    · have h' : isNodeReady ⟨nm, conds, apre ++ apost⟩ = true := h
      simp [h, h', nodeExternalAddrs, parseAddr]
    · have h' : isNodeReady ⟨nm, conds, apre ++ apost⟩ = false := by
        simpa using h
      simp [h, h']
  · rfl

/-- Claim C7: a node without a true readiness condition contributes zero
addresses to the collector's output, even if it reports external IPs:
dropping it from the node list leaves the result unchanged. -/
theorem claim7_not_ready_contributes_nothing (rv : String) (pre post : List Node)
    (node : Node)
    (hn : ∀ c ∈ node.conditions,
      c.condType = ConditionType.nodeReady → c.status ≠ ConditionStatus.conditionTrue) :
    getClusterExternalIPs (Except.ok ⟨rv, pre ++ node :: post⟩) =
      getClusterExternalIPs (Except.ok ⟨rv, pre ++ post⟩) := by
  have hready : isNodeReady node = false := by
    simp only [isNodeReady, List.any_eq_false]
    intro c hc
    simp only [Bool.and_eq_true, decide_eq_true_eq, not_and]
    exact fun ht => hn c hc ht
  simp [getClusterExternalIPs, List.filter_append, List.filter_cons, hready]

/-- Concrete instance of claim C7: a node whose readiness condition is
false contributes nothing although it reports the external IP
198.51.100.7. -/
theorem claim7_witness :
    (∀ c ∈ (Node.mk "node-a"
        [⟨ConditionType.nodeReady, ConditionStatus.conditionFalse⟩]
        [⟨NodeAddressType.nodeExternalIP,
          AddrString.parsesTo (IPAddr.v4 198 51 100 7)⟩]).conditions,
      c.condType = ConditionType.nodeReady → c.status ≠ ConditionStatus.conditionTrue) ∧
    getClusterExternalIPs (Except.ok ⟨"rv1",
        [] ++ (Node.mk "node-a"
          [⟨ConditionType.nodeReady, ConditionStatus.conditionFalse⟩]
          [⟨NodeAddressType.nodeExternalIP,
            AddrString.parsesTo (IPAddr.v4 198 51 100 7)⟩]) ::
          [Node.mk "node-b"
            [⟨ConditionType.nodeReady, ConditionStatus.conditionTrue⟩]
            [⟨NodeAddressType.nodeExternalIP,
              AddrString.parsesTo (IPAddr.v4 203 0 113 9)⟩]]⟩) =
      getClusterExternalIPs (Except.ok ⟨"rv1",
        [] ++ [Node.mk "node-b"
          [⟨ConditionType.nodeReady, ConditionStatus.conditionTrue⟩]
          [⟨NodeAddressType.nodeExternalIP,
            AddrString.parsesTo (IPAddr.v4 203 0 113 9)⟩]]⟩) :=
  ⟨by decide, claim7_not_ready_contributes_nothing "rv1" [] _ _ (by decide)⟩

/-- Claim C6: with an empty configured hostname, every fetched record
whose parse yields `ErrNotAddressRecord` becomes a delete candidate,
because the zero `libdns.Address{}` value's empty name equals the empty
hostname and its zero IP is not among the (successfully parsed, hence
valid) desired addresses. -/
theorem claim6_empty_hostname_deletes_non_address (cfg : DNSConfig)
    (records : List Record) (addresses : List IPAddr) (record : Record)
    (hh : cfg.hostname = "") (hr : record ∈ records)
    (hp : parseAddress record = ParseResult.errNotAddress)
    (hv : ∀ ip ∈ addresses, IPAddr.isValid ip = true) :
    record ∈ recordsToDelete cfg records addresses := by
  have hmem : IPAddr.invalid ∉ addresses := by
    intro hmem
    have := hv _ hmem
    simp [IPAddr.isValid] at this
  simp [recordsToDelete, List.mem_filter, isDeleteCandidate, hp, zeroAddress, hh, hr, hmem]

/-- Concrete instance of claim C6: with hostname `""`, a TXT-like record
is proposed for deletion although it is not an address record. -/
theorem claim6_witness :
    (DNSConfig.mk "" "example.org" [] 0).hostname = "" ∧
    Record.otherRec 3 ∈ [Record.otherRec 3] ∧
    parseAddress (Record.otherRec 3) = ParseResult.errNotAddress ∧
    (∀ ip ∈ [IPAddr.v4 10 0 0 1], IPAddr.isValid ip = true) ∧
    Record.otherRec 3 ∈
      recordsToDelete ⟨"", "example.org", [], 0⟩ [Record.otherRec 3] [IPAddr.v4 10 0 0 1] :=
  ⟨by decide, by decide, by decide, by decide,
    claim6_empty_hostname_deletes_non_address ⟨"", "example.org", [], 0⟩
      [Record.otherRec 3] [IPAddr.v4 10 0 0 1] (Record.otherRec 3)
      (by decide) (by decide) (by decide) (by decide)⟩

/-- With a provider whose write calls succeed, `syncHostnameIPs` issues
exactly the calls described by `syncCalls` and returns no error. -/
theorem syncHostnameIPs_ok (cfg : DNSConfig) (records : List Record)
    (addresses : List IPAddr) :
    syncHostnameIPs ⟨Except.ok records, none, none⟩ cfg addresses =
      (syncCalls cfg records addresses, none) := by
  simp [syncHostnameIPs, syncCalls, ite_self]

/-- Applying the calls of a successful run replaces the zone's records by
the non-candidates of the delete pass followed by the created address
records. -/
theorem applyCalls_syncCalls (cfg : DNSConfig) (records : List Record)
    (addresses : List IPAddr) :
    applyCalls records (syncCalls cfg records addresses) =
      records.filter (fun r => ! isDeleteCandidate cfg addresses r) ++
        (recordsToCreate cfg records addresses).map Record.addressRec := by
  unfold applyCalls syncCalls
  by_cases hd : (recordsToDelete cfg records addresses).isEmpty
  · rw [if_pos hd]
    have hnil : recordsToDelete cfg records addresses = [] := by
      simpa [List.isEmpty_iff] using hd
    have hfilter : records.filter (fun r => ! isDeleteCandidate cfg addresses r) = records := by
      rw [List.filter_eq_self]
      intro a ha
      have := (List.filter_eq_nil_iff.mp hnil) a ha
      simpa using this
    by_cases hc : (recordsToCreate cfg records addresses).isEmpty
    · have hcnil : recordsToCreate cfg records addresses = [] := by
        simpa [List.isEmpty_iff] using hc
      simp [hc, hfilter, hcnil]
    · simp [hc, hfilter]
  · rw [if_neg hd]
    have hfold : applyDeletes records (recordsToDelete cfg records addresses) =
        records.filter (fun r => ! isDeleteCandidate cfg addresses r) := by
      unfold applyDeletes
      apply List.filter_congr
      intro a ha
      by_cases hcand : isDeleteCandidate cfg addresses a
      · simp [recordsToDelete, List.mem_filter, ha, hcand]
      · simp [recordsToDelete, List.mem_filter, hcand]
    by_cases hc : (recordsToCreate cfg records addresses).isEmpty
    · have hcnil : recordsToCreate cfg records addresses = [] := by
        simpa [List.isEmpty_iff] using hc
      simp [hc, hfold, hcnil]
    · simp [hc, hfold]

/-- Membership in the provider state after a successful run: exactly the
fetched records that were not delete candidates plus the created address
records. -/
theorem mem_applyCalls_syncCalls (cfg : DNSConfig) (records : List Record)
    (addresses : List IPAddr) (r : Record) :
    r ∈ applyCalls records (syncCalls cfg records addresses) ↔
      (r ∈ records ∧ isDeleteCandidate cfg addresses r = false) ∨
      (∃ a ∈ recordsToCreate cfg records addresses, Record.addressRec a = r) := by
  rw [applyCalls_syncCalls]
  simp [List.mem_append, List.mem_filter, List.mem_map]

/-- Characterization of the create-pass existence check in terms of the
pure parse outcome, valid whenever the configured hostname is non-empty
(so that the zero `libdns.Address{}` value can never match). -/
theorem recordMatches_eq_true_iff (cfg : DNSConfig) (hh : cfg.hostname ≠ "")
    (ip : IPAddr) (r : Record) :
    recordMatches cfg ip r = true ↔
      ∃ a : Address, parseAddress r = ParseResult.ok a ∧
        a.name = cfg.hostname ∧ a.ip = ip := by
  have hh' : ¬ ("" = cfg.hostname) := fun h => hh h.symm
  cases r <;> simp [recordMatches, parseAddress, zeroAddress, hh']

/-- Claim C1 (amended with a non-empty hostname): the delete candidates
are exactly the fetched records parsing to an address record with the
target hostname and an undesired IP, and the create candidates are
exactly the new address records, built from the target hostname, a
desired address and the target TTL, for the desired addresses no fetched
record parses to. -/
theorem claim1_amended_candidate_sets (cfg : DNSConfig) (records : List Record)
    (addresses : List IPAddr) (hh : cfg.hostname ≠ "") :
    (∀ r : Record, r ∈ recordsToDelete cfg records addresses ↔
      r ∈ records ∧ ∃ a : Address, parseAddress r = ParseResult.ok a ∧
        a.name = cfg.hostname ∧ a.ip ∉ addresses) ∧
    (∀ c : Address, c ∈ recordsToCreate cfg records addresses ↔
      ∃ ip ∈ addresses, c = ⟨cfg.hostname, ip, cfg.ttl⟩ ∧
        ¬ ∃ r ∈ records, ∃ a : Address, parseAddress r = ParseResult.ok a ∧
          a.name = cfg.hostname ∧ a.ip = ip) := by
  have hh' : ¬ ("" = cfg.hostname) := fun h => hh h.symm
  constructor
  · intro r
    cases r with
    | addressRec a =>
        simp [recordsToDelete, List.mem_filter, isDeleteCandidate, parseAddress]
    | otherRec n =>
        simp [recordsToDelete, List.mem_filter, isDeleteCandidate, parseAddress,
          zeroAddress, hh']
    | malformedRec n e =>
        simp [recordsToDelete, List.mem_filter, isDeleteCandidate, parseAddress]
  · intro c
    simp only [recordsToCreate, List.mem_map, List.mem_filter]
    constructor
    · rintro ⟨ip, ⟨hip, hany⟩, rfl⟩
      refine ⟨ip, hip, rfl, ?_⟩
      rintro ⟨r, hr, a, hpa, hname, hip'⟩
      have : records.any (recordMatches cfg ip) = true := by
        rw [List.any_eq_true]
        exact ⟨r, hr, (recordMatches_eq_true_iff cfg hh ip r).mpr ⟨a, hpa, hname, hip'⟩⟩
      simp [this] at hany
    · rintro ⟨ip, hip, rfl, hnone⟩
      refine ⟨ip, ⟨hip, ?_⟩, rfl⟩
      have : records.any (recordMatches cfg ip) = false := by
        rw [List.any_eq_false]
        intro r hr hmatch
        exact hnone ⟨r, hr, (recordMatches_eq_true_iff cfg hh ip r).mp hmatch⟩
      simp [this]

/-- Counterexample to claim C1 as stated: with an empty target hostname a
record that does not parse as an address record (its parse yields
`ErrNotAddressRecord`) is nevertheless a delete candidate. -/
theorem claim1_counterexample :
    recordsToDelete ⟨"", "example.org", [], 0⟩ [Record.otherRec 0] [] =
      [Record.otherRec 0] ∧
    parseAddress (Record.otherRec 0) = ParseResult.errNotAddress := by
  constructor
  · rfl
  · rfl

/-- Concrete instance of amended claim C1, the convergence example of the
claim: existing A records 10.0.0.1 and 10.0.0.2 on hostname h and desired
addresses 10.0.0.2 and 10.0.0.3 give delete set exactly the 10.0.0.1
record and create set exactly the 10.0.0.3 record. -/
theorem claim1_witness :
    (DNSConfig.mk "h" "example.org" [] 300).hostname ≠ "" ∧
    ((∀ r : Record, r ∈ recordsToDelete ⟨"h", "example.org", [], 300⟩
        [Record.addressRec ⟨"h", IPAddr.v4 10 0 0 1, 300⟩,
         Record.addressRec ⟨"h", IPAddr.v4 10 0 0 2, 300⟩]
        [IPAddr.v4 10 0 0 2, IPAddr.v4 10 0 0 3] ↔
      r ∈ [Record.addressRec ⟨"h", IPAddr.v4 10 0 0 1, 300⟩,
           Record.addressRec ⟨"h", IPAddr.v4 10 0 0 2, 300⟩] ∧
        ∃ a : Address, parseAddress r = ParseResult.ok a ∧
          a.name = (DNSConfig.mk "h" "example.org" [] 300).hostname ∧
          a.ip ∉ [IPAddr.v4 10 0 0 2, IPAddr.v4 10 0 0 3]) ∧
    (∀ c : Address, c ∈ recordsToCreate ⟨"h", "example.org", [], 300⟩
        [Record.addressRec ⟨"h", IPAddr.v4 10 0 0 1, 300⟩,
         Record.addressRec ⟨"h", IPAddr.v4 10 0 0 2, 300⟩]
        [IPAddr.v4 10 0 0 2, IPAddr.v4 10 0 0 3] ↔
      ∃ ip ∈ [IPAddr.v4 10 0 0 2, IPAddr.v4 10 0 0 3],
        c = ⟨(DNSConfig.mk "h" "example.org" [] 300).hostname, ip,
          (DNSConfig.mk "h" "example.org" [] 300).ttl⟩ ∧
        ¬ ∃ r ∈ [Record.addressRec ⟨"h", IPAddr.v4 10 0 0 1, 300⟩,
             Record.addressRec ⟨"h", IPAddr.v4 10 0 0 2, 300⟩],
          ∃ a : Address, parseAddress r = ParseResult.ok a ∧
            a.name = (DNSConfig.mk "h" "example.org" [] 300).hostname ∧ a.ip = ip)) ∧
    recordsToDelete ⟨"h", "example.org", [], 300⟩
        [Record.addressRec ⟨"h", IPAddr.v4 10 0 0 1, 300⟩,
         Record.addressRec ⟨"h", IPAddr.v4 10 0 0 2, 300⟩]
        [IPAddr.v4 10 0 0 2, IPAddr.v4 10 0 0 3] =
      [Record.addressRec ⟨"h", IPAddr.v4 10 0 0 1, 300⟩] ∧
    recordsToCreate ⟨"h", "example.org", [], 300⟩
        [Record.addressRec ⟨"h", IPAddr.v4 10 0 0 1, 300⟩,
         Record.addressRec ⟨"h", IPAddr.v4 10 0 0 2, 300⟩]
        [IPAddr.v4 10 0 0 2, IPAddr.v4 10 0 0 3] =
      [⟨"h", IPAddr.v4 10 0 0 3, 300⟩] :=
  ⟨by decide,
   claim1_amended_candidate_sets ⟨"h", "example.org", [], 300⟩
     [Record.addressRec ⟨"h", IPAddr.v4 10 0 0 1, 300⟩,
      Record.addressRec ⟨"h", IPAddr.v4 10 0 0 2, 300⟩]
     [IPAddr.v4 10 0 0 2, IPAddr.v4 10 0 0 3] (by decide),
   by decide, by decide⟩

/-- Claim C2 (amended with a non-empty hostname): a fetched record whose
parse yields `ErrNotAddressRecord` is never a delete candidate, and no
create candidate corresponds to it. -/
theorem claim2_amended_non_address_untouched (cfg : DNSConfig)
    (records : List Record) (addresses : List IPAddr) (r : Record)
    (hh : cfg.hostname ≠ "") (hp : parseAddress r = ParseResult.errNotAddress) :
    r ∉ recordsToDelete cfg records addresses ∧
    ∀ a ∈ recordsToCreate cfg records addresses, Record.addressRec a ≠ r := by
  have hh' : ¬ ("" = cfg.hostname) := fun h => hh h.symm
  constructor
  · intro hmem
    have hcand := (List.mem_filter.mp hmem).2
    simp only [isDeleteCandidate, hp] at hcand
    simp [zeroAddress, hh'] at hcand
  · intro a _ heq
    cases r <;> simp [parseAddress] at hp
    simp at heq

/-- Counterexample to claim C2 as stated: with an empty target hostname a
non-address record is included in the delete candidate set. -/
theorem claim2_counterexample :
    Record.otherRec 5 ∈ recordsToDelete ⟨"", "example.org", [], 0⟩
      [Record.addressRec ⟨"w", IPAddr.v4 192 0 2 1, 60⟩, Record.otherRec 5] [] ∧
    parseAddress (Record.otherRec 5) = ParseResult.errNotAddress := by
  constructor
  · decide
  · rfl

/-- Concrete instance of amended claim C2: with hostname h, a TXT-like
record in the zone is neither deleted nor matched by any create
candidate. -/
theorem claim2_witness :
    (DNSConfig.mk "h" "example.org" [] 300).hostname ≠ "" ∧
    parseAddress (Record.otherRec 5) = ParseResult.errNotAddress ∧
    (Record.otherRec 5 ∉ recordsToDelete ⟨"h", "example.org", [], 300⟩
        [Record.otherRec 5] [IPAddr.v4 10 0 0 1] ∧
      ∀ a ∈ recordsToCreate ⟨"h", "example.org", [], 300⟩
          [Record.otherRec 5] [IPAddr.v4 10 0 0 1],
        Record.addressRec a ≠ Record.otherRec 5) :=
  ⟨by decide, by decide,
   claim2_amended_non_address_untouched ⟨"h", "example.org", [], 300⟩
     [Record.otherRec 5] [IPAddr.v4 10 0 0 1] (Record.otherRec 5)
     (by decide) (by decide)⟩

/-- Claim C3 (amended: the no-duplicates clause dropped; the collected
addresses are assumed valid, as every address produced by the collector's
successful parses is): after a successful reconciliation run in which the
provider applies the issued deletes and creates, the set of address-record
IPs at the target hostname equals the set of collected addresses — none
missing, none extra.  Duplicate records can remain or be created. -/
theorem claim3_amended_convergence (cfg : DNSConfig) (records : List Record)
    (addresses : List IPAddr)
    (hv : ∀ ip ∈ addresses, IPAddr.isValid ip = true) :
    (syncHostnameIPs ⟨Except.ok records, none, none⟩ cfg addresses).2 = none ∧
    ∀ ip : IPAddr,
      (∃ a : Address,
          Record.addressRec a ∈
            applyCalls records
              (syncHostnameIPs ⟨Except.ok records, none, none⟩ cfg addresses).1 ∧
          a.name = cfg.hostname ∧ a.ip = ip) ↔ ip ∈ addresses := by
  rw [syncHostnameIPs_ok cfg records addresses]
  refine ⟨rfl, ?_⟩
  intro ip
  constructor
  · rintro ⟨a, hmem, hname, hip⟩
    rw [mem_applyCalls_syncCalls] at hmem
    rcases hmem with ⟨_, hcand⟩ | ⟨a', ha', heq⟩
    · simp [isDeleteCandidate, parseAddress, hname] at hcand
      exact hip ▸ hcand
    · simp only [recordsToCreate, List.mem_map, List.mem_filter] at ha'
      obtain ⟨ip0, ⟨hip0, -⟩, rfl⟩ := ha'
      cases heq
      exact hip ▸ hip0
  · intro hip
    by_cases hex : records.any (recordMatches cfg ip)
    · rw [List.any_eq_true] at hex
      obtain ⟨r, hr, hmatch⟩ := hex
      cases r with
      | addressRec a =>
          simp only [recordMatches, parseAddress, Bool.and_eq_true, decide_eq_true_eq]
            at hmatch
          obtain ⟨hname, hip'⟩ := hmatch
          refine ⟨a, ?_, hname, hip'⟩
          rw [mem_applyCalls_syncCalls]
          left
          refine ⟨hr, ?_⟩
          have : a.ip ∈ addresses := by rw [hip']; exact hip
          simp [isDeleteCandidate, parseAddress, this]
      | otherRec n =>
          simp only [recordMatches, parseAddress, zeroAddress, Bool.and_eq_true,
            decide_eq_true_eq] at hmatch
          have := hv ip hip
          rw [← hmatch.2] at this
          simp [IPAddr.isValid] at this
      | malformedRec n e =>
          simp [recordMatches, parseAddress] at hmatch
    · refine ⟨⟨cfg.hostname, ip, cfg.ttl⟩, ?_, rfl, rfl⟩
      rw [mem_applyCalls_syncCalls]
      right
      refine ⟨⟨cfg.hostname, ip, cfg.ttl⟩, ?_, rfl⟩
      simp only [recordsToCreate, List.mem_map, List.mem_filter]
      exact ⟨ip, ⟨hip, by simpa using hex⟩, rfl⟩

/-- Counterexample to claim C3 as stated: a collected address sequence
containing 10.0.0.3 twice against an empty zone makes the create pass
build two identical records, so the provider ends up with duplicate
records for the hostname; the claimed in-reconciliation deduplication
does not happen. -/
theorem claim3_counterexample :
    applyCalls []
        (syncHostnameIPs ⟨Except.ok [], none, none⟩ ⟨"h", "example.org", [], 300⟩
          [IPAddr.v4 10 0 0 3, IPAddr.v4 10 0 0 3]).1 =
      [Record.addressRec ⟨"h", IPAddr.v4 10 0 0 3, 300⟩,
       Record.addressRec ⟨"h", IPAddr.v4 10 0 0 3, 300⟩] ∧
    ¬ (applyCalls []
        (syncHostnameIPs ⟨Except.ok [], none, none⟩ ⟨"h", "example.org", [], 300⟩
          [IPAddr.v4 10 0 0 3, IPAddr.v4 10 0 0 3]).1).Nodup := by
  constructor
  · rfl
  · decide

/-- Concrete instance of amended claim C3: from records 10.0.0.1 and
10.0.0.2 (plus a TXT-like record) and desired addresses 10.0.0.2 and
10.0.0.3, the reconciled zone holds exactly the desired address set at
hostname h. -/
theorem claim3_witness :
    (∀ ip ∈ [IPAddr.v4 10 0 0 2, IPAddr.v4 10 0 0 3], IPAddr.isValid ip = true) ∧
    ((syncHostnameIPs ⟨Except.ok
        [Record.addressRec ⟨"h", IPAddr.v4 10 0 0 1, 300⟩,
         Record.addressRec ⟨"h", IPAddr.v4 10 0 0 2, 300⟩, Record.otherRec 7],
        none, none⟩ ⟨"h", "example.org", [], 300⟩
        [IPAddr.v4 10 0 0 2, IPAddr.v4 10 0 0 3]).2 = none ∧
    ∀ ip : IPAddr,
      (∃ a : Address,
          Record.addressRec a ∈
            applyCalls
              [Record.addressRec ⟨"h", IPAddr.v4 10 0 0 1, 300⟩,
               Record.addressRec ⟨"h", IPAddr.v4 10 0 0 2, 300⟩, Record.otherRec 7]
              (syncHostnameIPs ⟨Except.ok
                [Record.addressRec ⟨"h", IPAddr.v4 10 0 0 1, 300⟩,
                 Record.addressRec ⟨"h", IPAddr.v4 10 0 0 2, 300⟩, Record.otherRec 7],
                none, none⟩ ⟨"h", "example.org", [], 300⟩
                [IPAddr.v4 10 0 0 2, IPAddr.v4 10 0 0 3]).1 ∧
          a.name = (DNSConfig.mk "h" "example.org" [] 300).hostname ∧ a.ip = ip) ↔
        ip ∈ [IPAddr.v4 10 0 0 2, IPAddr.v4 10 0 0 3]) :=
  ⟨by decide,
   claim3_amended_convergence ⟨"h", "example.org", [], 300⟩
     [Record.addressRec ⟨"h", IPAddr.v4 10 0 0 1, 300⟩,
      Record.addressRec ⟨"h", IPAddr.v4 10 0 0 2, 300⟩, Record.otherRec 7]
     [IPAddr.v4 10 0 0 2, IPAddr.v4 10 0 0 3] (by decide)⟩

/-- Claim C4: idempotence.  After a successful run against a provider
whose writes succeed, a second run with the same desired addresses
computes empty delete and create candidate sets and issues zero delete
and zero create calls, whatever the second provider's write behavior
would be. -/
theorem claim4_idempotence (cfg : DNSConfig) (records : List Record)
    (addresses : List IPAddr) (d2 s2 : Option GoError) :
    recordsToDelete cfg
        (applyCalls records
          (syncHostnameIPs ⟨Except.ok records, none, none⟩ cfg addresses).1)
        addresses = [] ∧
    recordsToCreate cfg
        (applyCalls records
          (syncHostnameIPs ⟨Except.ok records, none, none⟩ cfg addresses).1)
        addresses = [] ∧
    syncHostnameIPs
        ⟨Except.ok (applyCalls records
          (syncHostnameIPs ⟨Except.ok records, none, none⟩ cfg addresses).1), d2, s2⟩
        cfg addresses = (⟨[], []⟩, none) := by
  rw [syncHostnameIPs_ok cfg records addresses]
  have hdel : recordsToDelete cfg
      (applyCalls records (syncCalls cfg records addresses)) addresses = [] := by
    rw [recordsToDelete, List.filter_eq_nil_iff]
    intro r hr
    rw [mem_applyCalls_syncCalls] at hr
    rcases hr with ⟨_, hcand⟩ | ⟨a, ha, heq⟩
    · simp [hcand]
    · simp only [recordsToCreate, List.mem_map, List.mem_filter] at ha
      obtain ⟨ip, ⟨hip, -⟩, rfl⟩ := ha
      cases heq
      simp [isDeleteCandidate, parseAddress, hip]
  have hcre : recordsToCreate cfg
      (applyCalls records (syncCalls cfg records addresses)) addresses = [] := by
    rw [recordsToCreate, List.map_eq_nil_iff, List.filter_eq_nil_iff]
    intro ip hip
    have hany : (applyCalls records (syncCalls cfg records addresses)).any
        (recordMatches cfg ip) = true := by
      rw [List.any_eq_true]
      by_cases hex : records.any (recordMatches cfg ip)
      · rw [List.any_eq_true] at hex
        obtain ⟨r, hr, hmatch⟩ := hex
        refine ⟨r, ?_, hmatch⟩
        rw [mem_applyCalls_syncCalls]
        left
        refine ⟨hr, ?_⟩
        cases r with
        | addressRec a =>
            simp only [recordMatches, parseAddress, Bool.and_eq_true,
              decide_eq_true_eq] at hmatch
            have : a.ip ∈ addresses := by rw [hmatch.2]; exact hip
            simp [isDeleteCandidate, parseAddress, this]
        | otherRec n =>
            simp only [recordMatches, parseAddress, zeroAddress, Bool.and_eq_true,
              decide_eq_true_eq] at hmatch
            have hinv : IPAddr.invalid ∈ addresses := by rw [hmatch.2]; exact hip
            simp [isDeleteCandidate, parseAddress, zeroAddress, hinv]
        | malformedRec n e =>
            simp [recordMatches, parseAddress] at hmatch
      · refine ⟨Record.addressRec ⟨cfg.hostname, ip, cfg.ttl⟩, ?_, ?_⟩
        · rw [mem_applyCalls_syncCalls]
          right
          refine ⟨⟨cfg.hostname, ip, cfg.ttl⟩, ?_, rfl⟩
          simp only [recordsToCreate, List.mem_map, List.mem_filter]
          exact ⟨ip, ⟨hip, by simpa using hex⟩, rfl⟩
        · simp [recordMatches, parseAddress]
    simp [hany]
  refine ⟨hdel, hcre, ?_⟩
  simp [syncHostnameIPs, hdel, hcre]

/-- When the cancellation signal never fires, the per-tick loop processes
every target, logging each outcome, and does not exit. -/
theorem runTick_no_cancel (cancel : Nat → Bool) (hc : ∀ j, cancel j = false)
    (k : Nat) (l : List TargetRun) :
    runTick cancel k l =
      ⟨l.map (fun t => (runTarget t).2), k + l.length, false⟩ := by
  induction l generalizing k with
  | nil => simp [runTick]
  | cons t rest ih =>
      simp only [runTick, hc k, Bool.false_eq_true, if_false]
      rw [ih (k + 1)]
      simp [Nat.add_comm, Nat.add_assoc, Nat.add_left_comm]

/-- If the per-tick loop exited, some cancellation check fired. -/
theorem runTick_cancelled (cancel : Nat → Bool) (k : Nat) (l : List TargetRun) :
    (runTick cancel k l).cancelled = true → ∃ j, cancel j = true := by
  induction l generalizing k with
  | nil => simp [runTick]
  | cons t rest ih =>
      simp only [runTick]
      by_cases h : cancel k
      · exact fun _ => ⟨k, h⟩
      · simp only [h, Bool.false_eq_true, if_false]
        exact ih (k + 1)

/-- Claim C10: per-target errors never terminate the scheduling loop.
If the cancellation signal never fires, every tick processes every
configured target — whatever per-target errors occur — and the loop keeps
running tick after tick; and whenever the loop does exit, some
cancellation check fired. -/
theorem claim10_loop_error_isolation (cancel : Nat → Bool)
    (envs : Nat → List TargetRun) (k fuel : Nat) :
    ((∀ j, cancel j = false) →
      runLoop cancel envs k fuel =
        ((List.range fuel).map (fun t => (envs t).map (fun tr => (runTarget tr).2)),
         false)) ∧
    ((runLoop cancel envs k fuel).2 = true → ∃ j, cancel j = true) := by
  constructor
  · intro hc
    induction fuel generalizing envs k with
    | zero => simp [runLoop]
    | succ n ih =>
        simp only [runLoop]
        rw [runTick_no_cancel cancel hc k (envs 0)]
        simp only [hc, Bool.false_eq_true, if_false]
        rw [ih (fun t => envs (t + 1)) (k + (envs 0).length + 1)]
        simp [List.range_succ_eq_map, List.map_map, Function.comp]
  · induction fuel generalizing envs k with
    | zero => simp [runLoop]
    | succ n ih =>
        simp only [runLoop]
        by_cases h1 : (runTick cancel k (envs 0)).cancelled
        · exact fun _ => runTick_cancelled cancel k (envs 0) h1
        · simp only [h1, Bool.false_eq_true, if_false]
          by_cases h2 : cancel (runTick cancel k (envs 0)).counter
          · exact fun _ => ⟨_, h2⟩
          · simp only [h2, Bool.false_eq_true, if_false]
            exact ih (fun t => envs (t + 1)) ((runTick cancel k (envs 0)).counter + 1)

/-- Concrete instance of claim C10: two ticks over a two-target list whose
second target always fails still process both targets in both ticks and
leave the loop running. -/
theorem claim10_witness :
    (∀ j : Nat, (fun _ : Nat => false) j = false) ∧
    runLoop (fun _ : Nat => false)
        (fun _ : Nat =>
          [⟨⟨"h", "example.org", [], 300⟩, Except.ok ⟨"rv", []⟩,
            ⟨Except.ok [], none, none⟩⟩,
           ⟨⟨"k", "example.org", [], 300⟩, Except.error (GoError.external "timeout"),
            ⟨Except.ok [], none, none⟩⟩])
        0 2 =
      ((List.range 2).map (fun t =>
        ((fun _ : Nat =>
          ([⟨⟨"h", "example.org", [], 300⟩, Except.ok ⟨"rv", []⟩,
             ⟨Except.ok [], none, none⟩⟩,
            ⟨⟨"k", "example.org", [], 300⟩, Except.error (GoError.external "timeout"),
             ⟨Except.ok [], none, none⟩⟩] : List TargetRun)) t).map
          (fun tr => (runTarget tr).2)),
       false) :=
  ⟨fun _ => rfl,
   (claim10_loop_error_isolation (fun _ : Nat => false)
     (fun _ : Nat =>
       [⟨⟨"h", "example.org", [], 300⟩, Except.ok ⟨"rv", []⟩,
         ⟨Except.ok [], none, none⟩⟩,
        ⟨⟨"k", "example.org", [], 300⟩, Except.error (GoError.external "timeout"),
         ⟨Except.ok [], none, none⟩⟩])
     0 2).1 (fun _ => rfl)⟩

/-- Claim C5: if the batched delete call fails, `syncHostnameIPs` returns
the wrapped error at once — the single delete call was issued and no
create call is issued, whatever the provider's create behavior would have
been — and a tick containing such a failing target still processes every
other target. -/
theorem claim5_delete_failure_aborts (cfg : DNSConfig) (records : List Record)
    (addresses : List IPAddr) (e : GoError) (setRes : Option GoError)
    (cluster : Except GoError NodeList)
    (hne : recordsToDelete cfg records addresses ≠ []) :
    syncHostnameIPs ⟨Except.ok records, some e, setRes⟩ cfg addresses =
      (⟨[recordsToDelete cfg records addresses], []⟩,
       some (GoError.wrapped WrapMsg.failedToDeleteRecords e)) ∧
    ∀ (k : Nat) (pre post : List TargetRun),
      (runTick (fun _ => false) k
          (pre ++ ⟨cfg, cluster, ⟨Except.ok records, some e, setRes⟩⟩ :: post)).outcomes.length =
        pre.length + 1 + post.length ∧
      (runTick (fun _ => false) k
          (pre ++ ⟨cfg, cluster, ⟨Except.ok records, some e, setRes⟩⟩ :: post)).cancelled =
        false := by
  constructor
  · have hemp : (recordsToDelete cfg records addresses).isEmpty = false := by
      simpa [List.isEmpty_iff] using hne
    simp [syncHostnameIPs, hemp]
  · intro k pre post
    rw [runTick_no_cancel (fun _ => false) (fun _ => rfl) k _]
    constructor
    · simp [List.length_append]
      omega
    · rfl

/-- Concrete instance of claim C5: a zone with the stale record 10.0.0.1,
an empty desired set and a failing delete call: the run stops with the
wrapped delete error, creates nothing, and a tick with a healthy second
target still processes both targets. -/
theorem claim5_witness :
    recordsToDelete ⟨"h", "example.org", [], 300⟩
        [Record.addressRec ⟨"h", IPAddr.v4 10 0 0 1, 300⟩] [] ≠ [] ∧
    (syncHostnameIPs
        ⟨Except.ok [Record.addressRec ⟨"h", IPAddr.v4 10 0 0 1, 300⟩],
         some (GoError.external "api down"), none⟩
        ⟨"h", "example.org", [], 300⟩ [] =
      (⟨[recordsToDelete ⟨"h", "example.org", [], 300⟩
            [Record.addressRec ⟨"h", IPAddr.v4 10 0 0 1, 300⟩] []], []⟩,
       some (GoError.wrapped WrapMsg.failedToDeleteRecords (GoError.external "api down"))) ∧
     ∀ (k : Nat) (pre post : List TargetRun),
      (runTick (fun _ => false) k
          (pre ++ ⟨⟨"h", "example.org", [], 300⟩, Except.ok ⟨"rv", []⟩,
            ⟨Except.ok [Record.addressRec ⟨"h", IPAddr.v4 10 0 0 1, 300⟩],
             some (GoError.external "api down"), none⟩⟩ :: post)).outcomes.length =
        pre.length + 1 + post.length ∧
      (runTick (fun _ => false) k
          (pre ++ ⟨⟨"h", "example.org", [], 300⟩, Except.ok ⟨"rv", []⟩,
            ⟨Except.ok [Record.addressRec ⟨"h", IPAddr.v4 10 0 0 1, 300⟩],
             some (GoError.external "api down"), none⟩⟩ :: post)).cancelled = false) :=
  ⟨by decide,
   claim5_delete_failure_aborts ⟨"h", "example.org", [], 300⟩
     [Record.addressRec ⟨"h", IPAddr.v4 10 0 0 1, 300⟩] []
     (GoError.external "api down") none (Except.ok ⟨"rv", []⟩) (by decide)⟩

end KubeDnsSync
